import Mathlib

/-!
Shallow embedding of the SPOC booking frontend orchestrator
(src/frontend/src/App.jsx) and its availability aggregation.

The React component App holds ten pieces of useState; we model them as one
record, AppState, and each event handler as a pure function from the state
(plus the settled results of the remote calls it awaits, passed as an
oracle record of functions) to the next state.  Remote calls are values of
Except ApiError, where ApiError carries the optional server detail string
read by the handlers as err.response?.data?.detail.
-/

namespace SpocBooking

/-- A bookable time slot, as consumed by App.jsx (slot.slot_id, slot.start_time). -/
structure Slot where
  slot_id : String
  start_time : String
deriving DecidableEq, Repr

/-- A SPOC record, as consumed by App.jsx and SpocCard.jsx
(spoc.spoc_id, spoc.name, spoc.expertise, spoc.specialization, spoc.email,
spoc.available_slots). -/
structure Spoc where
  spoc_id : String
  name : String
  expertise : String
  specialization : Option String
  email : String
  available_slots : List Slot
deriving DecidableEq, Repr

/-- The booking record returned by a successful bookingApi.create, as read
by the success screen of App.jsx. -/
structure BookingResult where
  booking_id : String
  spoc_name : String
  start_time : String
  meeting_link : Option String
deriving DecidableEq, Repr

/-- The client submission form data assembled by BookingForm.jsx: every
field is a string, optional ones default to the empty string. -/
structure ClientSubmission where
  company_name : String
  contact_name : String
  contact_email : String
  contact_phone : String
  industry : String
  budget_range : String
  decision_timeline : String
  solution_type : String
deriving DecidableEq, Repr

/-- A failed remote call, carrying the optional server-supplied detail
message that App.jsx reads as err.response?.data?.detail.  A thrown
TypeError (no response field) is modelled as detail = none. -/
structure ApiError where
  detail : Option String
deriving DecidableEq, Repr

/-- The JS expression err.response?.data?.detail || generic: the detail is
used when present and truthy (a nonempty string); otherwise the generic
fallback message is used. -/
def detailOrDefault (detail : Option String) (generic : String) : String :=
  match detail with
  | some d => if d = "" then generic else d
  | none => generic

/-- The payload of bookingApi.create, built in handleBookingConfirm.
client_id is whatever the clientId state holds (it may be null in JS). -/
structure BookingRequest where
  client_id : Option String
  spoc_id : String
  slot_id : String
  meeting_type : String
deriving DecidableEq, Repr

/-- The settled results of the remote calls awaited inside
handleClientSubmit: clientApi.create on the form data, spocApi.getAll on
the solution_type filter, and spocApi.getAvailability per spoc_id (the
14-day window arguments are fixed at call time and folded into the
oracle). -/
structure RemoteSubmitCalls where
  createClient : ClientSubmission → Except ApiError String
  listSpocs : String → Except ApiError (List Spoc)
  getAvailability : String → Except ApiError Spoc

/-- The settled result of the remote call awaited inside
handleBookingConfirm: bookingApi.create on the booking payload. -/
structure RemoteBookingCalls where
  createBooking : BookingRequest → Except ApiError BookingResult

/-- The step useState of App.jsx: one of the literals used there. -/
inductive Step where
  | form
  | spocs
  | success
deriving DecidableEq, Repr

/-- The ten useState hooks of the App component, in declaration order. -/
structure AppState where
  step : Step
  clientData : Option ClientSubmission
  clientId : Option String
  spocs : List Spoc
  selectedSpoc : Option Spoc
  selectedSlot : Option Slot
  showModal : Bool
  bookingResult : Option BookingResult
  isLoading : Bool
  error : Option String
deriving DecidableEq, Repr

/-- The initial values passed to useState in App.jsx. -/
def initialState : AppState :=
  { step := Step.form
    clientData := none
    clientId := none
    spocs := []
    selectedSpoc := none
    selectedSlot := none
    showModal := false
    bookingResult := none
    isLoading := false
    error := none }

/-- One arm of the Promise.all map in handleClientSubmit: on success the
entry is availabilityResponse.data, on failure the candidate itself with
available_slots replaced by the empty list (the inner try/catch). -/
def mergeAvailability (avail : String → Except ApiError Spoc) (spoc : Spoc) : Spoc :=
  match avail spoc.spoc_id with
  | Except.ok enriched => enriched
  | Except.error _ => { spoc with available_slots := [] }

/-- The whole Promise.all over spocsResponse.data.map in handleClientSubmit.
Promise.all resolves in the order of the mapped array, so the aggregation
is an order-preserving map. -/
def aggregateAvailability (candidates : List Spoc)
    (avail : String → Except ApiError Spoc) : List Spoc :=
  candidates.map (mergeAvailability avail)

/-- The synchronous prefix of handleClientSubmit before the first await:
setIsLoading(true); setError(null). -/
def submitBegin (s : AppState) : AppState :=
  { s with isLoading := true, error := none }

/-- handleClientSubmit (App.jsx lines 20-54).  The try block awaits
clientApi.create, stores client_id and the form data, awaits
spocApi.getAll, aggregates per-SPOC availability, stores the list and
moves step to the spocs literal; the catch stores
err.response?.data?.detail || a generic message; finally clears
isLoading. -/
def handleClientSubmit (s : AppState) (formData : ClientSubmission)
    (api : RemoteSubmitCalls) : AppState :=
  let s0 := submitBegin s
  match api.createClient formData with
  | Except.error err =>
      { s0 with error := some (detailOrDefault err.detail "Failed to process request.")
                isLoading := false }
  | Except.ok cid =>
      let s1 := { s0 with clientId := some cid, clientData := some formData }
      match api.listSpocs formData.solution_type with
      | Except.error err =>
          { s1 with error := some (detailOrDefault err.detail "Failed to process request.")
                    isLoading := false }
      | Except.ok candidates =>
          { s1 with spocs := aggregateAvailability candidates api.getAvailability
                    step := Step.spocs
                    isLoading := false }

/-- handleSlotSelection (App.jsx lines 56-61): looks the SPOC up in the
current list, records the pair, opens the modal.  It runs the same way in
every workflow step (the handler itself has no step guard). -/
def handleSlotSelection (s : AppState) (spocId : String) (slot : Slot) : AppState :=
  { s with selectedSpoc := s.spocs.find? (fun x => x.spoc_id == spocId)
           selectedSlot := some slot
           showModal := true }

/-- The synchronous prefix of handleBookingConfirm before any await:
setIsLoading(true); setError(null). -/
def confirmBegin (s : AppState) : AppState :=
  { s with isLoading := true, error := none }

/-- The bookingData object built in handleBookingConfirm, when the field
accesses selectedSpoc.spoc_id and selectedSlot.slot_id succeed.  With no
selection recorded the JS accesses throw a TypeError before any remote
call, which we model as none. -/
def bookingRequest (s : AppState) (meetingType : String) : Option BookingRequest :=
  match s.selectedSpoc, s.selectedSlot with
  | some sp, some sl =>
      some { client_id := s.clientId
             spoc_id := sp.spoc_id
             slot_id := sl.slot_id
             meeting_type := meetingType }
  | _, _ => none

/-- handleBookingConfirm (App.jsx lines 63-82).  The try block builds
bookingData (throwing if no selection is recorded), awaits
bookingApi.create, stores the result, closes the modal and moves step to
the success literal; the catch stores err.response?.data?.detail || the
generic message (a thrown TypeError has no response, hence the generic
message); finally clears isLoading. -/
def handleBookingConfirm (s : AppState) (meetingType : String)
    (api : RemoteBookingCalls) : AppState :=
  let s0 := confirmBegin s
  match bookingRequest s meetingType with
  | none =>
      { s0 with error := some "Booking failed.", isLoading := false }
  | some req =>
      match api.createBooking req with
      | Except.ok res =>
          { s0 with bookingResult := some res
                    showModal := false
                    step := Step.success
                    isLoading := false }
      | Except.error err =>
          { s0 with error := some (detailOrDefault err.detail "Booking failed.")
                    isLoading := false }

/-- handleReset (App.jsx lines 84-93): writes the step literal form and
clears clientData, clientId, spocs, selectedSpoc, selectedSlot,
bookingResult and error.  It does not touch showModal or isLoading. -/
def handleReset (s : AppState) : AppState :=
  { s with step := Step.form
           clientData := none
           clientId := none
           spocs := []
           selectedSpoc := none
           selectedSlot := none
           bookingResult := none
           error := none }

/-- One user-driven orchestrator operation together with the settled
results of the remote calls it awaits. -/
inductive Op where
  | submit : ClientSubmission → RemoteSubmitCalls → Op
  | select : String → Slot → Op
  | confirm : String → RemoteBookingCalls → Op
  | reset : Op

/-- Apply one operation to the session state. -/
def applyOp (s : AppState) : Op → AppState
  | Op.submit fd api => handleClientSubmit s fd api
  | Op.select spocId slot => handleSlotSelection s spocId slot
  | Op.confirm mt api => handleBookingConfirm s mt api
  | Op.reset => handleReset s

/-- The session states reachable from the initial render by any sequence
of operations. -/
inductive Reachable : AppState → Prop where
  | init : Reachable initialState
  | next : ∀ (s : AppState) (op : Op), Reachable s → Reachable (applyOp s op)

/-- Auxiliary invariant: while the step is the form literal, no SPOC is
selected and the SPOC list is empty. -/
def formInv (s : AppState) : Prop :=
  s.step = Step.form → s.selectedSpoc = none ∧ s.spocs = []

lemma formInv_initial : formInv initialState := by
  intro _
  exact ⟨rfl, rfl⟩

lemma formInv_applyOp (s : AppState) (op : Op) (h : formInv s) :
    formInv (applyOp s op) := by
  cases op with
  | submit fd api =>
    intro hstep
    simp only [applyOp, handleClientSubmit, submitBegin] at hstep ⊢
    cases hc : api.createClient fd with
    | error err =>
      simp only [hc] at hstep ⊢
      exact h hstep
    | ok cid =>
      cases hl : api.listSpocs fd.solution_type with
      | error err =>
        simp only [hc, hl] at hstep ⊢
        exact h hstep
      | ok cands =>
        simp only [hc, hl] at hstep
        cases hstep
  | select spocId slot =>
    intro hstep
    simp only [applyOp, handleSlotSelection] at hstep ⊢
    obtain ⟨_, h2⟩ := h hstep
    simp [h2]
  | confirm mt api =>
    intro hstep
    simp only [applyOp, handleBookingConfirm, confirmBegin, bookingRequest] at hstep ⊢
    cases hsp : s.selectedSpoc with
    | none =>
      simp only [hsp] at hstep ⊢
      exact ⟨trivial, (h hstep).2⟩
    | some sp =>
      cases hsl : s.selectedSlot with
      | none =>
        simp only [hsp, hsl] at hstep ⊢
        have := (h hstep).1
        rw [hsp] at this
        cases this
      | some sl =>
        simp only [hsp, hsl] at hstep ⊢
        cases hb : api.createBooking
            { client_id := s.clientId, spoc_id := sp.spoc_id,
              slot_id := sl.slot_id, meeting_type := mt } with
        | ok res =>
          simp only [hb] at hstep
          cases hstep
        | error err =>
          simp only [hb] at hstep ⊢
          have := (h hstep).1
          rw [hsp] at this
          cases this
  | reset =>
    intro _
    exact ⟨rfl, rfl⟩

lemma reachable_formInv (s : AppState) (h : Reachable s) : formInv s := by
  induction h with
  | init => exact formInv_initial
  | next s op _ ih => exact formInv_applyOp s op ih

/-! Concrete sample data, used by the witness theorems. -/

def slot1 : Slot :=
  { slot_id := "slot-1", start_time := "2026-10-20T10:00:00Z" }

def slot2 : Slot :=
  { slot_id := "slot-2", start_time := "2026-10-21T15:00:00Z" }

def spocAlice : Spoc :=
  { spoc_id := "spoc-1", name := "Alice", expertise := "Automation"
    specialization := none, email := "alice@example.com", available_slots := [] }

def spocBob : Spoc :=
  { spoc_id := "spoc-2", name := "Bob", expertise := "Automation"
    specialization := some "RPA", email := "bob@example.com", available_slots := [] }

def spocAliceWithSlots : Spoc :=
  { spocAlice with available_slots := [slot1, slot2] }

/-- Availability oracle of the test scenario: succeeds for Alice with two
slots, fails for everyone else. -/
def demoAvail : String → Except ApiError Spoc := fun sid =>
  if sid = "spoc-1" then Except.ok spocAliceWithSlots
  else Except.error { detail := none }

def demoSubmission : ClientSubmission :=
  { company_name := "Acme", contact_name := "", contact_email := "a@b.com"
    contact_phone := "", industry := "", budget_range := "50K - 250K"
    decision_timeline := "This Month", solution_type := "Automation" }

def demoSubmitApi : RemoteSubmitCalls :=
  { createClient := fun _ => Except.ok "client-1"
    listSpocs := fun _ => Except.ok [spocAlice, spocBob]
    getAvailability := demoAvail }

def failingCreateApi : RemoteSubmitCalls :=
  { createClient := fun _ => Except.error { detail := some "Email already registered" }
    listSpocs := fun _ => Except.ok []
    getAvailability := fun _ => Except.error { detail := none } }

def reviewingState : AppState :=
  { initialState with
      step := Step.spocs
      clientData := some demoSubmission
      clientId := some "client-1"
      spocs := [spocAliceWithSlots, spocBob]
      selectedSpoc := some spocAliceWithSlots
      selectedSlot := some slot1
      showModal := true }

def conflictBookingApi : RemoteBookingCalls :=
  { createBooking := fun _ => Except.error { detail := some "Slot already booked" } }

def demoBooking : BookingResult :=
  { booking_id := "booking-1", spoc_name := "Alice"
    start_time := "2026-10-20T10:00:00Z", meeting_link := none }

def successBookingApi : RemoteBookingCalls :=
  { createBooking := fun _ => Except.ok demoBooking }

/-! Claim theorems. -/

/-- Claim C1: for every candidate SPOC list and every availability oracle,
the aggregation returns exactly one entry per candidate; entry i is
derived from candidate i (so the relative order matches the candidate
list); and every candidate whose availability fetch failed appears with an
empty slot sequence. -/
theorem aggregate_preserves_candidate_list (candidates : List Spoc)
    (avail : String → Except ApiError Spoc) :
    (aggregateAvailability candidates avail).length = candidates.length ∧
    (∀ i : Nat, (aggregateAvailability candidates avail)[i]? =
      (candidates[i]?).map (mergeAvailability avail)) ∧
    (∀ (i : Nat) (sp : Spoc) (e : ApiError), candidates[i]? = some sp →
      avail sp.spoc_id = Except.error e →
      (aggregateAvailability candidates avail)[i]? =
        some { sp with available_slots := [] }) := by
  refine ⟨List.length_map _ _, fun i => List.getElem?_map .., ?_⟩
  intro i sp e hget hav
  simp [aggregateAvailability, List.getElem?_map, hget, mergeAvailability, hav]

theorem aggregate_preserves_candidate_list_witness :
    (aggregateAvailability [spocAlice, spocBob] demoAvail)[1]? =
      some { spocBob with available_slots := [] } :=
  (aggregate_preserves_candidate_list [spocAlice, spocBob] demoAvail).2.2 1 spocBob
    { detail := none } rfl rfl

/-- Claim C2: when both the client creation and the SPOC listing succeed,
handleClientSubmit moves the session to the reviewing step and stores
exactly the one ClientId returned by the creation call (and the
submission). -/
theorem submitClient_success_enters_reviewing (s : AppState)
    (fd : ClientSubmission) (api : RemoteSubmitCalls) (cid : String)
    (cands : List Spoc)
    (hc : api.createClient fd = Except.ok cid)
    (hl : api.listSpocs fd.solution_type = Except.ok cands) :
    (handleClientSubmit s fd api).step = Step.spocs ∧
    (handleClientSubmit s fd api).clientId = some cid ∧
    (handleClientSubmit s fd api).clientData = some fd := by
  simp [handleClientSubmit, submitBegin, hc, hl]

theorem submitClient_success_enters_reviewing_witness :
    (handleClientSubmit initialState demoSubmission demoSubmitApi).step = Step.spocs ∧
    (handleClientSubmit initialState demoSubmission demoSubmitApi).clientId = some "client-1" ∧
    (handleClientSubmit initialState demoSubmission demoSubmitApi).clientData =
      some demoSubmission :=
  submitClient_success_enters_reviewing initialState demoSubmission demoSubmitApi
    "client-1" [spocAlice, spocBob] rfl rfl

/-- Claim C3: if the client creation or the SPOC listing fails,
handleClientSubmit leaves the workflow step and the stored SPOC list
unchanged (so a session in the form step stays there and no partial
candidate list is stored) and stores a user-facing message that prefers
the server-supplied detail and falls back to a generic one. -/
theorem submitClient_failure_stays_in_form (s : AppState)
    (fd : ClientSubmission) (api : RemoteSubmitCalls) :
    (∀ e : ApiError, api.createClient fd = Except.error e →
      (handleClientSubmit s fd api).step = s.step ∧
      (handleClientSubmit s fd api).spocs = s.spocs ∧
      (handleClientSubmit s fd api).error =
        some (detailOrDefault e.detail "Failed to process request.")) ∧
    (∀ (cid : String) (e : ApiError), api.createClient fd = Except.ok cid →
      api.listSpocs fd.solution_type = Except.error e →
      (handleClientSubmit s fd api).step = s.step ∧
      (handleClientSubmit s fd api).spocs = s.spocs ∧
      (handleClientSubmit s fd api).error =
        some (detailOrDefault e.detail "Failed to process request.")) ∧
    (∀ d : String, d ≠ "" →
      detailOrDefault (some d) "Failed to process request." = d) ∧
    detailOrDefault none "Failed to process request." = "Failed to process request." := by
  refine ⟨?_, ?_, ?_, rfl⟩
  · intro e he
    simp [handleClientSubmit, submitBegin, he]
  · intro cid e hc hl
    simp [handleClientSubmit, submitBegin, hc, hl]
  · intro d hd
    simp [detailOrDefault, hd]

theorem submitClient_failure_stays_in_form_witness :
    (handleClientSubmit initialState demoSubmission failingCreateApi).step =
      initialState.step ∧
    (handleClientSubmit initialState demoSubmission failingCreateApi).spocs =
      initialState.spocs ∧
    (handleClientSubmit initialState demoSubmission failingCreateApi).error =
      some (detailOrDefault (some "Email already registered") "Failed to process request.") :=
  (submitClient_failure_stays_in_form initialState demoSubmission failingCreateApi).1
    { detail := some "Email already registered" } rfl

/-- Claim C4: when the booking-create call fails (for instance with a slot
conflict), handleBookingConfirm keeps the session in the reviewing step,
leaves the selected Spoc and Slot of the last selection untouched, and
surfaces the error message in the error field. -/
theorem confirmBooking_failure_preserves_selection (s : AppState)
    (mt : String) (api : RemoteBookingCalls) (sp : Spoc) (sl : Slot)
    (e : ApiError)
    (hstep : s.step = Step.spocs)
    (hsp : s.selectedSpoc = some sp)
    (hsl : s.selectedSlot = some sl)
    (hb : api.createBooking
      { client_id := s.clientId, spoc_id := sp.spoc_id,
        slot_id := sl.slot_id, meeting_type := mt } = Except.error e) :
    (handleBookingConfirm s mt api).step = Step.spocs ∧
    (handleBookingConfirm s mt api).selectedSpoc = some sp ∧
    (handleBookingConfirm s mt api).selectedSlot = some sl ∧
    (handleBookingConfirm s mt api).error =
      some (detailOrDefault e.detail "Booking failed.") := by
  simp [handleBookingConfirm, confirmBegin, bookingRequest, hsp, hsl, hb, hstep]

theorem confirmBooking_failure_preserves_selection_witness :
    (handleBookingConfirm reviewingState "Technical Demo" conflictBookingApi).step =
      Step.spocs ∧
    (handleBookingConfirm reviewingState "Technical Demo" conflictBookingApi).selectedSpoc =
      some spocAliceWithSlots ∧
    (handleBookingConfirm reviewingState "Technical Demo" conflictBookingApi).selectedSlot =
      some slot1 ∧
    (handleBookingConfirm reviewingState "Technical Demo" conflictBookingApi).error =
      some (detailOrDefault (some "Slot already booked") "Booking failed.") :=
  confirmBooking_failure_preserves_selection reviewingState "Technical Demo"
    conflictBookingApi spocAliceWithSlots slot1 { detail := some "Slot already booked" }
    rfl rfl rfl rfl

/-- Claim C5: in every reachable session state, the success step is entered
only by a confirm operation whose booking-create call succeeded, and only
from the reviewing step; from the form step no operation reaches the
success step and no booking request can even be built. -/
theorem booked_only_via_successful_confirm (s : AppState) (hreach : Reachable s) :
    (∀ op : Op, (applyOp s op).step = Step.success → s.step ≠ Step.success →
      s.step = Step.spocs ∧
      ∃ (mt : String) (api : RemoteBookingCalls) (req : BookingRequest)
        (res : BookingResult),
        op = Op.confirm mt api ∧ bookingRequest s mt = some req ∧
        api.createBooking req = Except.ok res) ∧
    (s.step = Step.form →
      (∀ op : Op, (applyOp s op).step ≠ Step.success) ∧
      (∀ mt : String, bookingRequest s mt = none)) := by
  have hinv := reachable_formInv s hreach
  constructor
  · intro op hsucc hnot
    cases op with
    | submit fd api =>
      simp only [applyOp, handleClientSubmit, submitBegin] at hsucc
      cases hc : api.createClient fd with
      | error err =>
        simp only [hc] at hsucc
        exact absurd hsucc hnot
      | ok cid =>
        cases hl : api.listSpocs fd.solution_type with
        | error err =>
          simp only [hc, hl] at hsucc
          exact absurd hsucc hnot
        | ok cands =>
          simp only [hc, hl] at hsucc
          cases hsucc
    | select spocId slot =>
      simp only [applyOp, handleSlotSelection] at hsucc
      exact absurd hsucc hnot
    | confirm mt api =>
      simp only [applyOp, handleBookingConfirm, confirmBegin] at hsucc
      cases hreq : bookingRequest s mt with
      | none =>
        simp only [hreq] at hsucc
        exact absurd hsucc hnot
      | some req =>
        cases hb : api.createBooking req with
        | error err =>
          simp only [hreq, hb] at hsucc
          exact absurd hsucc hnot
        | ok res =>
          have hnotform : s.step ≠ Step.form := by
            intro hform
            have hsel := (hinv hform).1
            rw [bookingRequest, hsel] at hreq
            cases hreq
          have hspocs : s.step = Step.spocs := by
            cases h : s.step with
            | form => exact absurd h hnotform
            | spocs => rfl
            | success => exact absurd h hnot
          exact ⟨hspocs, mt, api, req, res, rfl, hreq, hb⟩
    | reset =>
      simp only [applyOp, handleReset] at hsucc
      cases hsucc
  · intro hform
    have hsel := (hinv hform).1
    have hreqnone : ∀ mt : String, bookingRequest s mt = none := by
      intro mt
      rw [bookingRequest, hsel]
    refine ⟨?_, hreqnone⟩
    intro op
    cases op with
    | submit fd api =>
      simp only [applyOp, handleClientSubmit, submitBegin]
      cases hc : api.createClient fd with
      | error err =>
        simp only [hform]
        intro h
        cases h
      | ok cid =>
        cases hl : api.listSpocs fd.solution_type with
        | error err =>
          simp only [hform]
          intro h
          cases h
        | ok cands =>
          simp only []
          intro h
          cases h
    | select spocId slot =>
      simp only [applyOp, handleSlotSelection, hform]
      intro h
      cases h
    | confirm mt api =>
      simp only [applyOp, handleBookingConfirm, confirmBegin, hreqnone mt, hform]
      intro h
      cases h
    | reset =>
      simp only [applyOp, handleReset]
      intro h
      cases h

theorem booked_only_via_successful_confirm_witness :
    (applyOp initialState Op.reset).step ≠ Step.success :=
  ((booked_only_via_successful_confirm initialState Reachable.init).2 rfl).1 Op.reset

/-- Claim C6: calling handleBookingConfirm with no recorded selection
builds no booking request (the remote call is never issued), leaves the
workflow step unchanged, and fails with the generic booking error
message. -/
theorem confirmBooking_without_selection_fails (s : AppState) (mt : String)
    (api : RemoteBookingCalls)
    (h : s.selectedSpoc = none ∨ s.selectedSlot = none) :
    bookingRequest s mt = none ∧
    (handleBookingConfirm s mt api).step = s.step ∧
    (handleBookingConfirm s mt api).error = some "Booking failed." := by
  have hreq : bookingRequest s mt = none := by
    rw [bookingRequest]
    rcases h with h | h
    · rw [h]
    · rw [h]
      cases s.selectedSpoc <;> rfl
  refine ⟨hreq, ?_, ?_⟩ <;>
    simp [handleBookingConfirm, confirmBegin, hreq]

theorem confirmBooking_without_selection_fails_witness :
    bookingRequest initialState "Technical Demo" = none ∧
    (handleBookingConfirm initialState "Technical Demo" conflictBookingApi).step =
      initialState.step ∧
    (handleBookingConfirm initialState "Technical Demo" conflictBookingApi).error =
      some "Booking failed." :=
  confirmBooking_without_selection_fails initialState "Technical Demo"
    conflictBookingApi (Or.inl rfl)

/-- Claim C7 counterexample: handleSlotSelection is not a no-op outside the
reviewing step.  In the initial state (step is the form literal) it still
records the slot and opens the modal, so the state changes. -/
theorem selectSlot_not_noop_outside_reviewing :
    handleSlotSelection initialState "spoc-1" slot1 ≠ initialState := by
  intro h
  have hmodal : (handleSlotSelection initialState "spoc-1" slot1).showModal =
      initialState.showModal := congrArg AppState.showModal h
  simp [handleSlotSelection, initialState] at hmodal

/-- Claim C7 amended: handleSlotSelection never changes the workflow step
or any field other than the selection and the modal flag, and it never
crashes, in every state; but it is not a full no-op outside the reviewing
step: it still records the slot, looks the Spoc up in the current list,
and opens the modal. -/
theorem selectSlot_frame (s : AppState) (spocId : String) (slot : Slot) :
    (handleSlotSelection s spocId slot).step = s.step ∧
    (handleSlotSelection s spocId slot).clientData = s.clientData ∧
    (handleSlotSelection s spocId slot).clientId = s.clientId ∧
    (handleSlotSelection s spocId slot).spocs = s.spocs ∧
    (handleSlotSelection s spocId slot).bookingResult = s.bookingResult ∧
    (handleSlotSelection s spocId slot).error = s.error ∧
    (handleSlotSelection s spocId slot).isLoading = s.isLoading ∧
    (handleSlotSelection s spocId slot).selectedSlot = some slot ∧
    (handleSlotSelection s spocId slot).selectedSpoc =
      s.spocs.find? (fun x => x.spoc_id == spocId) ∧
    (handleSlotSelection s spocId slot).showModal = true := by
  refine ⟨rfl, rfl, rfl, rfl, rfl, rfl, rfl, rfl, rfl, rfl⟩

/-- Claim C8: after a selection that found the SPOC in the current list,
the booking request built by handleBookingConfirm carries exactly the
selected spocId and the selected slot identifier, and a successful
booking-create stores exactly the returned result. -/
theorem confirm_uses_last_selection (s : AppState) (spocId : String)
    (slot : Slot) (mt : String) (api : RemoteBookingCalls) (sp : Spoc)
    (hfind : s.spocs.find? (fun x => x.spoc_id == spocId) = some sp) :
    ∃ req : BookingRequest,
      bookingRequest (handleSlotSelection s spocId slot) mt = some req ∧
      req.spoc_id = spocId ∧
      req.slot_id = slot.slot_id ∧
      ∀ res : BookingResult, api.createBooking req = Except.ok res →
        (handleBookingConfirm (handleSlotSelection s spocId slot) mt api).bookingResult =
          some res := by
  have hid : sp.spoc_id = spocId := by
    have hp := List.find?_some hfind
    exact eq_of_beq hp
  refine ⟨{ client_id := s.clientId, spoc_id := sp.spoc_id,
            slot_id := slot.slot_id, meeting_type := mt }, ?_, hid, rfl, ?_⟩
  · simp [bookingRequest, handleSlotSelection, hfind]
  · intro res hres
    simp [handleBookingConfirm, confirmBegin, bookingRequest, handleSlotSelection,
      hfind, hres]

theorem confirm_uses_last_selection_witness :
    ∃ req : BookingRequest,
      bookingRequest (handleSlotSelection reviewingState "spoc-1" slot2)
        "Technical Demo" = some req ∧
      req.spoc_id = "spoc-1" ∧
      req.slot_id = slot2.slot_id ∧
      ∀ res : BookingResult, successBookingApi.createBooking req = Except.ok res →
        (handleBookingConfirm (handleSlotSelection reviewingState "spoc-1" slot2)
          "Technical Demo" successBookingApi).bookingResult = some res :=
  confirm_uses_last_selection reviewingState "spoc-1" slot2 "Technical Demo"
    successBookingApi spocAliceWithSlots rfl

/-- Claim C9: handleReset is idempotent and the state after one reset has
the form step with the submission, client id, SPOC list, selection,
booking result and error all cleared. -/
theorem reset_idempotent (s : AppState) :
    handleReset (handleReset s) = handleReset s ∧
    (handleReset s).step = Step.form ∧
    (handleReset s).clientData = none ∧
    (handleReset s).clientId = none ∧
    (handleReset s).spocs = [] ∧
    (handleReset s).selectedSpoc = none ∧
    (handleReset s).selectedSlot = none ∧
    (handleReset s).bookingResult = none ∧
    (handleReset s).error = none :=
  ⟨rfl, rfl, rfl, rfl, rfl, rfl, rfl, rfl, rfl⟩

/-- Claim C10: both asynchronous handlers clear the error field to none in
their synchronous prefix, before any remote call, and their whole outcome
is independent of whatever error was stored before they started. -/
theorem operations_clear_stale_error (s : AppState) (e : Option String)
    (fd : ClientSubmission) (sapi : RemoteSubmitCalls) (mt : String)
    (bapi : RemoteBookingCalls) :
    (submitBegin s).error = none ∧
    (confirmBegin s).error = none ∧
    handleClientSubmit { s with error := e } fd sapi = handleClientSubmit s fd sapi ∧
    handleBookingConfirm { s with error := e } mt bapi = handleBookingConfirm s mt bapi := by
  refine ⟨rfl, rfl, ?_, ?_⟩
  · unfold handleClientSubmit submitBegin
    cases sapi.createClient fd with
    | error err => rfl
    | ok cid =>
      cases sapi.listSpocs fd.solution_type with
      | error err => rfl
      | ok cands => rfl
  · simp only [handleBookingConfirm, confirmBegin, bookingRequest]

end SpocBooking
